import Mathlib

set_option maxRecDepth 100000

/-!
Shallow embedding of `wsjtx-adif.py`, a one-shot converter from a wsjt-x fox-mode
text log to an ADIF log.  The Python functions are translated one-to-one:
`freq_to_band`, `adif_date`, `adif_time`, `adif_db`, `adif_field`, `adif_row` and
the stateful body of `convert` (the per-line regex match, the `Sel:` and `Rx:`
handlers, the `ongoing` dict and the output writes).  Machine behaviour that can
raise `ValueError` (tuple unpacking, `int()`, `float()`, `strptime`) is modelled
with `Option`, and an uncaught exception is modelled as an abort flag that stops
the line-processing fold.  Float values are represented exactly, as an integer
numerator over a power-of-ten denominator (the decimal strings the line pattern
admits are exact, and the verified comparisons stay far from any rounding
boundary of the binary double).  Output is modelled as the ordered list of writes,
each tagged with the stream it goes to: `print` always targets standard output,
`outf.write` targets the configured output stream (standard output by default).
`pytz` timezone conversion is abstracted as a function `DT → DT`; for the zone
`UTC` (the only zone the verified properties use) it is the identity.
-/

/-- Character class of Python `str.split()` and `\s` (ASCII range; wsjt-x log
lines are ASCII). -/
def pyIsSpace (c : Char) : Bool :=
  c = ' ' || c = '\t' || c = '\n' || c = '\r' || c = '\x0b' || c = '\x0c'

/-- Character class of `\d`. -/
def pyIsDigit (c : Char) : Bool := decide ('0' ≤ c ∧ c ≤ '9')

/-- Character class of `\w` (ASCII range). -/
def pyIsWord (c : Char) : Bool := c.isAlphanum || c = '_'

/-- Worker for `str.split()`: split on runs of whitespace, dropping empties. -/
def splitAux : List Char → List Char → List (List Char)
  | [], acc => if acc.isEmpty then [] else [acc.reverse]
  | c :: rest, acc =>
    if pyIsSpace c then
      if acc.isEmpty then splitAux rest [] else acc.reverse :: splitAux rest []
    else splitAux rest (c :: acc)

/-- Python `s.split()` with no separator argument. -/
def pySplit (s : String) : List String := (splitAux s.data []).map String.mk

/-- Numeric value of a digit character. -/
def dig (c : Char) : Nat := c.toNat - 48

/-- Value of a nonempty all-digit character list, `none` otherwise. -/
def digitsToNat : List Char → Option Nat
  | [] => none
  | cs => if cs.all pyIsDigit then some (cs.foldl (fun a c => 10 * a + dig c) 0) else none

/-- Python `int(s)` on a string: optional surrounding whitespace, optional sign,
digits; `none` models the `ValueError` raise.  (Numeric-literal underscore
grouping cannot occur in whitespace-split log tokens and is not modelled.) -/
def pyInt (s : String) : Option Int :=
  match ((s.data.dropWhile pyIsSpace).reverse.dropWhile pyIsSpace).reverse with
  | '+' :: ds => (digitsToNat ds).map (fun n => (n : Int))
  | '-' :: ds => (digitsToNat ds).map (fun n => -(n : Int))
  | ds => (digitsToNat ds).map (fun n => (n : Int))

/-- Zero-padding of `'%02d'` applied to a nonnegative value. -/
def pad2 (n : Nat) : String := if n < 10 then "0" ++ Nat.repr n else Nat.repr n

/-- `adif_db`: signal report in dB, ADIF formatted (`'+%02d'` / `'-%02d'`);
`none` models the `ValueError` of `int(d)`. -/
def adif_db (d : String) : Option String :=
  match pyInt d with
  | none => none
  | some v => if 0 ≤ v then some ("+" ++ pad2 v.toNat) else some ("-" ++ pad2 (-v).toNat)

/-- `adif_field`: ADIF field key-length-value encoding; a `None` value encodes
to the empty string. -/
def adif_field (k : String) (v : Option String) : String :=
  match v with
  | none => ""
  | some s => "<" ++ k ++ ":" ++ Nat.repr s.length ++ ">" ++ s

/-- `adif_row`: ADIF row encoding from the (insertion-ordered) field list. -/
def adif_row (h : List (String × Option String)) : String :=
  String.intercalate " " (h.map fun kv => adif_field kv.1 kv.2) ++ " <eor>\n"

/-- Exact value of a Python float: an integer numerator over a positive
denominator (the parser produces powers of ten). -/
structure PyFloat where
  num : Int
  den : Nat
deriving DecidableEq

/-- `a <= f` for an integer edge `a` and a float value `f`. -/
def PyFloat.geInt (f : PyFloat) (a : Int) : Prop := a * (f.den : Int) ≤ f.num

/-- `a >= f` for an integer edge `a` and a float value `f`. -/
def PyFloat.leInt (f : PyFloat) (a : Int) : Prop := f.num ≤ a * (f.den : Int)

instance (f : PyFloat) (a : Int) : Decidable (f.geInt a) := by
  unfold PyFloat.geInt; infer_instance

instance (f : PyFloat) (a : Int) : Decidable (f.leInt a) := by
  unfold PyFloat.leInt; infer_instance

/-- Multiplication of a float value by a nonnegative integer scalar. -/
def PyFloat.scale (f : PyFloat) (a : Nat) : PyFloat := ⟨f.num * a, f.den⟩

/-- `BAND_FREQ`: adif band identifiers and rough band edges (kHz), in the
declaration order of the Python dict. -/
def BAND_FREQ : List (String × Int × Int) :=
  [("160m", 1800, 2000), ("80m", 3500, 3800), ("60m", 5300, 5400),
   ("40m", 7000, 7200), ("30m", 10100, 10150), ("20m", 14000, 14250),
   ("17m", 18068, 18168), ("15m", 21000, 21450), ("12m", 24890, 24990),
   ("10m", 28000, 29690), ("6m", 50000, 52000), ("2m", 140000, 150000),
   ("70cm", 430000, 440000)]

/-- Iteration of `freq_to_band` over the band table, testing
`BAND_FREQ[band][0] <= freq_khz and BAND_FREQ[band][1] >= freq_khz`. -/
def freq_to_band_aux (f : PyFloat) : List (String × Int × Int) → Option String
  | [] => none
  | e :: rest => if f.geInt e.2.1 ∧ f.leInt e.2.2 then some e.1 else freq_to_band_aux f rest

/-- `freq_to_band`: convert frequency, in kilohertz, to an adif band identifier. -/
def freq_to_band (freq_khz : PyFloat) : Option String := freq_to_band_aux freq_khz BAND_FREQ

/-- A naive timestamp as `datetime.strptime` produces it. -/
structure DT where
  year : Nat
  month : Nat
  day : Nat
  hour : Nat
  minute : Nat
  second : Nat
deriving DecidableEq

/-- Gregorian leap-year test, as `datetime` uses it. -/
def isLeap (y : Nat) : Bool := y % 4 = 0 && (y % 100 != 0 || y % 400 = 0)

/-- Days in a month, as `datetime` validates them. -/
def daysInMonth (y m : Nat) : Nat :=
  if m = 2 then (if isLeap y then 29 else 28)
  else if m = 4 || m = 6 || m = 9 || m = 11 then 30 else 31

/-- Validity of a timestamp under `datetime` (year 1..9999, calendar day,
second 0..59); out-of-range fields make `strptime` raise `ValueError`. -/
def validDT (d : DT) : Bool :=
  decide (1 ≤ d.year) && decide (d.year ≤ 9999) && decide (1 ≤ d.month) &&
  decide (d.month ≤ 12) && decide (1 ≤ d.day) &&
  decide (d.day ≤ daysInMonth d.year d.month) && decide (d.hour ≤ 23) &&
  decide (d.minute ≤ 59) && decide (d.second ≤ 59)

/-- `datetime.strptime(s_date + ' ' + s_time, '%Y-%m-%d %H:%M:%S')` applied to
the two regex groups, whose shapes (`dddd-dd-dd`, `dd:dd:dd`) the line pattern
guarantees; `none` models the `ValueError` raise on out-of-range values. -/
def strptime2 (d t : String) : Option DT :=
  match d.data, t.data with
  | [y1, y2, y3, y4, _, m1, m2, _, d1, d2], [h1, h2, _, n1, n2, _, s1, s2] =>
    let v : DT := ⟨1000 * dig y1 + 100 * dig y2 + 10 * dig y3 + dig y4,
      10 * dig m1 + dig m2, 10 * dig d1 + dig d2, 10 * dig h1 + dig h2,
      10 * dig n1 + dig n2, 10 * dig s1 + dig s2⟩
    if validDT v then some v else none
  | _, _ => none

/-- `adif_date`: datetime object to ADIF date (`strftime('%Y%m%d')`). -/
def adif_date (dt : DT) : String := Nat.repr dt.year ++ pad2 dt.month ++ pad2 dt.day

/-- `adif_time`: datetime object to ADIF time (`strftime('%H%M%S')`). -/
def adif_time (dt : DT) : String := pad2 dt.hour ++ pad2 dt.minute ++ pad2 dt.second

/-- Value of an all-digit character list (shape checked by callers). -/
def digitsVal (cs : List Char) : Nat := cs.foldl (fun a c => 10 * a + dig c) 0

/-- Python `float(s)` as an exact value, for the `digits` and `digits.digits`
forms the line pattern can produce; `none` models `ValueError`. -/
def pyFloat (s : String) : Option PyFloat :=
  let ip := s.data.takeWhile pyIsDigit
  let rest := s.data.dropWhile pyIsDigit
  if ip.isEmpty then none
  else
    match rest with
    | [] => some ⟨digitsVal ip, 1⟩
    | '.' :: fr =>
      if !fr.isEmpty && fr.all pyIsDigit then
        some ⟨digitsVal ip * 10 ^ fr.length + digitsVal fr, 10 ^ fr.length⟩
      else none
    | _ => none

/-- Zero-padding to three digits for the fractional part of `'%.3f'`. -/
def pad3 (n : Nat) : String :=
  if n < 10 then "00" ++ Nat.repr n else if n < 100 then "0" ++ Nat.repr n else Nat.repr n

/-- `\'%.3f\' % v` for a nonnegative value: round to three decimals and render.
`floor(v * 1000 + 1/2)` is computed exactly as `(2000 * num + den) / (2 * den)`
rounded toward minus infinity.  (Exact for inputs with at most three decimals,
where no rounding occurs; the verified inputs are of that form.) -/
def fmt3 (q : PyFloat) : String :=
  let n : Int := Int.ediv (2000 * q.num + q.den) (2 * q.den)
  Int.repr (Int.ediv n 1000) ++ "." ++ pad3 (Int.emod n 1000).toNat

/-- Python `s.startswith(p)` at the character-list level. -/
def lpfx : List Char → List Char → Bool
  | [], _ => true
  | _ :: _, [] => false
  | a :: as, b :: bs => a = b && lpfx as bs

/-- Python `s.startswith(p)`. -/
def strStarts (s p : String) : Bool := lpfx p.data s.data

/-- Python `s.endswith(p)`. -/
def strEnds (s p : String) : Bool := lpfx p.data.reverse s.data.reverse

/-- Strip `<OH0/OH7LZB>` to `OH0/OH7LZB`: drop exactly one leading and one
trailing angle bracket when both are present. -/
def stripAngle (s : String) : String :=
  if strStarts s "<" && strEnds s ">" then (s.drop 1).dropRight 1 else s

/-- Anchored pattern body of `re_loc = '^[A-Z][A-Z][0-9][0-9]$'`. -/
def locCore : List Char → Bool
  | [a, b, c, d] =>
    decide ('A' ≤ a ∧ a ≤ 'Z') && decide ('A' ≤ b ∧ b ≤ 'Z') && pyIsDigit c && pyIsDigit d
  | _ => false

/-- `re_loc.match(s)`: the Python `$` anchor also accepts one trailing newline
(unreachable for whitespace-split tokens). -/
def re_loc_match (s : String) : Bool :=
  locCore s.data || ((s.data.getLast? == some '\n') && locCore s.data.dropLast)

/-- A pending entry of the `ongoing` dict, with the source's key names. -/
structure PendingQSO where
  freq : String
  loc : String
  s_db_sent : String
deriving DecidableEq

/-- The `ongoing` dict: insertion-ordered association list keyed by callsign. -/
abbrev PTable := List (String × PendingQSO)

/-- Dict lookup (`ongoing[call]`, `call in ongoing`). -/
def dictGet : PTable → String → Option PendingQSO
  | [], _ => none
  | (k, v) :: rest, key => if k = key then some v else dictGet rest key

/-- Dict assignment `ongoing[call] = ...`: overwrite in place, else append. -/
def dictSet : PTable → String → PendingQSO → PTable
  | [], key, v => [(key, v)]
  | (k, w) :: rest, key, v =>
    if k = key then (key, v) :: rest else (k, w) :: dictSet rest key v

/-- Dict deletion `del ongoing[call]`. -/
def dictDel (st : PTable) (key : String) : PTable :=
  st.filter (fun e => !(e.1 == key))

/-- Number of entries stored under a key (at most one in any reachable state). -/
def keyCount (st : PTable) (key : String) : Nat :=
  (st.filter (fun e => e.1 == key)).length

/-- Output channels: `print` writes to standard output, `outf.write` to the
configured output stream. -/
inductive Chan where
  | stdout : Chan
  | outfile : Chan
deriving DecidableEq

/-- The stream `outf` denotes: an output file when `--out` is given, else
standard output. -/
def outChanC (outfileGiven : Bool) : Chan := if outfileGiven then Chan.outfile else Chan.stdout

/-- The fixed header line written once at the start of `convert`. -/
def headerStr : String := "wsjtx fox ADIF Export<eoh>\n"

/-- The configuration surface `convert` reads: `--mycall`, `--power`, and the
timezone conversion (identity for the zone `UTC`). -/
structure Args where
  mycall : String
  power : Option Int
  tzConv : DT → DT

/-- The dict literal `o` built for a finalized contact, in its key insertion
order, with the optional `gridsquare` and `tx_pwr` appends.  `rs`/`rr` are the
already-formatted sent/received reports and `fq` the parsed pending frequency. -/
def mkRecord (args : Args) (call : String) (q : PendingQSO) (utc : DT)
    (rs rr : String) (fq : PyFloat) : List (String × Option String) :=
  let o := [("call", some call), ("mode", some "FT8"), ("rst_sent", some rs),
    ("rst_rcvd", some rr), ("qso_date", some (adif_date utc)),
    ("time_on", some (adif_time utc)), ("qso_date_off", some (adif_date utc)),
    ("time_off", some (adif_time utc)), ("band", freq_to_band (fq.scale 1000)),
    ("freq", some (fmt3 fq)), ("station_callsign", some args.mycall)]
  let o2 := if re_loc_match q.loc then o ++ [("gridsquare", some q.loc)] else o
  match args.power with
  | some p => if p ≠ 0 then o2 ++ [("tx_pwr", some (Int.repr p))] else o2
  | none => o2

/-- The `Sel:` branch of `convert`: `call, s_db_sent, loc = s_string.split()`
raises `ValueError` unless the payload splits into exactly three tokens, then
the pending entry is unconditionally (re)set. -/
def handleSel (st : PTable) (s_freq_mhz s_string : String) :
    List (Chan × String) × PTable × Option String :=
  match pySplit s_string with
  | [call, s_db_sent, loc] => ([], dictSet st call ⟨s_freq_mhz, loc, s_db_sent⟩, none)
  | _ => ([], st, some "ValueError: unpack")

/-- The `Rx:` branch of `convert`: fewer than eight payload tokens is reported
via `print` and skipped; more than eight raises at the 8-tuple unpacking; an
in-table callsign with an `R`-led report finalizes the contact, writes one row
to `outf` and deletes the pending entry.  `int()`/`float()` failures during the
record build abort. -/
def handleRx (args : Args) (cfg : Bool) (st : PTable) (d_dt : DT)
    (s_string l : String) : List (Chan × String) × PTable × Option String :=
  let a := pySplit s_string
  if a.length < 8 then
    ([(Chan.stdout, "rx: Not enough arguments: " ++ l ++ "\n")], st, none)
  else
    match a with
    | [_s_tm, _db, _foo1, _foo2, _foo3, _my, call0, report_rx] =>
      let s_db_rx := report_rx.drop 1
      let call := stripAngle call0
      match dictGet st call, strStarts report_rx "R" with
      | some q, true =>
        match adif_db q.s_db_sent, adif_db s_db_rx, pyFloat q.freq with
        | some rs, some rr, some fq =>
          let utc := args.tzConv d_dt
          ([(outChanC cfg, adif_row (mkRecord args call q utc rs rr fq))],
            dictDel st call, none)
        | _, _, _ => ([], st, some "ValueError: conversion")
      | _, _ => ([], st, none)
    | _ => ([], st, some "ValueError: too many values to unpack")

/-- The five groups of `re_line`. -/
structure LineGroups where
  s_date : String
  s_time : String
  s_freq_mhz : String
  s_linetype : String
  s_string : String
deriving DecidableEq

/-- Exactly `n` characters of class `\\d` (`\\d{n}`). -/
def matchDigits (n : Nat) (cs : List Char) : Option (List Char × List Char) :=
  let t := cs.take n
  if t.length = n && t.all pyIsDigit then some (t, cs.drop n) else none

/-- One literal character. -/
def matchLit (c : Char) : List Char → Option (List Char)
  | x :: rest => if x = c then some rest else none
  | [] => none

/-- A maximal nonempty run of class `p` (`\\s+`, `\\d+`, `\\w+`; every such run
in `re_line` is followed by a disjoint character class, so greedy matching with
no backtracking is exact). -/
def matchRun1 (p : Char → Bool) (cs : List Char) : Option (List Char × List Char) :=
  let t := cs.takeWhile p
  if t.isEmpty then none else some (t, cs.dropWhile p)

/-- The `\\d{4}-\\d{2}-\\d{2}` date group. -/
def matchDate (cs : List Char) : Option (List Char × List Char) := do
  let r1 ← matchDigits 4 cs
  let cs ← matchLit '-' r1.2
  let r2 ← matchDigits 2 cs
  let cs ← matchLit '-' r2.2
  let r3 ← matchDigits 2 cs
  pure (r1.1 ++ '-' :: r2.1 ++ '-' :: r3.1, r3.2)

/-- The `\\d{2}:\\d{2}:\\d{2}` time group. -/
def matchTime (cs : List Char) : Option (List Char × List Char) := do
  let r1 ← matchDigits 2 cs
  let cs ← matchLit ':' r1.2
  let r2 ← matchDigits 2 cs
  let cs ← matchLit ':' r2.2
  let r3 ← matchDigits 2 cs
  pure (r1.1 ++ ':' :: r2.1 ++ ':' :: r3.1, r3.2)

/-- The `\\d+\\.\\d+` frequency group. -/
def matchFreq (cs : List Char) : Option (List Char × List Char) := do
  let r1 ← matchRun1 pyIsDigit cs
  let cs ← matchLit '.' r1.2
  let r2 ← matchRun1 pyIsDigit cs
  pure (r1.1 ++ '.' :: r2.1, r2.2)

/-- One `\\s+\\d+` filler. -/
def matchSpInt (cs : List Char) : Option (List Char) := do
  let r1 ← matchRun1 pyIsSpace cs
  let r2 ← matchRun1 pyIsDigit r1.2
  pure r2.2

/-- The `\\s+(\\w+:)` line-type tag (the group includes the colon). -/
def matchTag (cs : List Char) : Option (List Char × List Char) := do
  let r1 ← matchRun1 pyIsSpace cs
  let r2 ← matchRun1 pyIsWord r1.2
  let cs ← matchLit ':' r2.2
  pure (r2.1 ++ [':'], cs)

/-- `re_line.match(l)`: the anchored-prefix pattern of `re_line`, with `.`
stopping at a newline and trailing input ignored (`re.match` needs no end
anchor). -/
def re_line_match (l : String) : Option LineGroups := do
  let rd ← matchDate l.data
  let cs ← matchLit ' ' rd.2
  let rt ← matchTime cs
  let rsp ← matchRun1 pyIsSpace rt.2
  let rf ← matchFreq rsp.2
  let cs ← matchSpInt rf.2
  let cs ← matchSpInt cs
  let cs ← matchSpInt cs
  let rg ← matchTag cs
  let rp ← matchRun1 pyIsSpace rg.2
  let payload := rp.2.takeWhile (fun c => c ≠ '\n')
  pure ⟨String.mk rd.1, String.mk rt.1, String.mk rf.1, String.mk rg.1, String.mk payload⟩

/-- Processing of one line of the loop body of `convert`: non-matching lines
are skipped silently, matched lines are timestamp-parsed and dispatched on the
line-type tag (`Tx1:`/`Log:` and unknown tags are recognized but inert).
Returns the writes performed, the new pending table, and the abort reason of an
uncaught exception, if any. -/
def lineOut (args : Args) (cfg : Bool) (st : PTable) (l : String) :
    List (Chan × String) × PTable × Option String :=
  match re_line_match l with
  | none => ([], st, none)
  | some g =>
    match strptime2 g.s_date g.s_time with
    | none => ([], st, some "ValueError: strptime")
    | some d_dt =>
      if g.s_linetype = "Sel:" then handleSel st g.s_freq_mhz g.s_string
      else if g.s_linetype = "Rx:" then handleRx args cfg st d_dt g.s_string l
      else ([], st, none)

/-- State of a run of `convert`: the `ongoing` dict, the ordered writes so far,
and whether an uncaught exception has terminated processing. -/
structure RunState where
  ongoing : PTable
  writes : List (Chan × String)
  aborted : Option String
deriving DecidableEq

/-- One iteration of the `for l in inf` loop (a dead run stays dead). -/
def stepRun (args : Args) (cfg : Bool) (rs : RunState) (l : String) : RunState :=
  if rs.aborted.isSome then rs
  else
    let r := lineOut args cfg rs.ongoing l
    ⟨r.2.1, rs.writes ++ r.1, r.2.2⟩

/-- `convert`: write the header, then fold the loop body over the input lines
(given without their trailing newline). -/
def convert (args : Args) (cfg : Bool) (lines : List String) : RunState :=
  lines.foldl (stepRun args cfg) ⟨[], [(outChanC cfg, headerStr)], none⟩

/-- The spec's reading of band resolution: the first table entry, in
declaration order, whose inclusive range contains the frequency. -/
def bandOfSpec (f : PyFloat) : Option String :=
  (BAND_FREQ.find? (fun e => decide (f.geInt e.2.1 ∧ f.leInt e.2.2))).map (fun e => e.1)

/-- Worker for the substring test: does `pat` start at any position of `s`? -/
def strHasAux (pat : List Char) : List Char → Bool
  | [] => pat.isEmpty
  | c :: rest => lpfx pat (c :: rest) || strHasAux pat rest

/-- Substring test (`pat in s` in Python). -/
def strHas (s pat : String) : Bool := strHasAux pat.data s.data

/-- Arguments of the spec's end-to-end example: `--mycall N0CALL --tz UTC`. -/
def argsD : Args := ⟨"N0CALL", none, id⟩

/-- The spec's example selection line. -/
def selLine20 : String := "2019-11-22 05:25:37  21.091  1  0  0 Sel:  JM1LSQ      -17 QM05"

/-- The spec's example receive line. -/
def rxLine20 : String := "2019-11-22 05:26:29  21.091  0  1  1 Rx:   052615  -8 -0.0  300 ~  XZ2D JM1LSQ R+01"

/-- The timestamp of the example receive line. -/
def dt0 : DT := ⟨2019, 11, 22, 5, 26, 29⟩

/-- The record the example pair of lines produces. -/
def rec20 : String := "<call:6>JM1LSQ <mode:3>FT8 <rst_sent:3>-17 <rst_rcvd:3>+01 <qso_date:8>20191122 <time_on:6>052629 <qso_date_off:8>20191122 <time_off:6>052629 <band:3>15m <freq:6>21.091 <station_callsign:6>N0CALL <gridsquare:4>QM05 <eor>\n"

/-- A selection line at 5.000 MHz, a frequency outside every declared band. -/
def selLine5 : String := "2019-11-22 05:25:37  5.000  1  0  0 Sel:  JM1LSQ      -17 QM05"

/-- The matching receive line at 5.000 MHz. -/
def rxLine5 : String := "2019-11-22 05:26:29  5.000  0  1  1 Rx:   052615  -8 -0.0  300 ~  XZ2D JM1LSQ R+01"

/-- The record the 5.000 MHz pair produces: the `band` field renders as the
empty string, leaving two consecutive spaces before `freq`. -/
def rec5 : String := "<call:6>JM1LSQ <mode:3>FT8 <rst_sent:3>-17 <rst_rcvd:3>+01 <qso_date:8>20191122 <time_on:6>052629 <qso_date_off:8>20191122 <time_off:6>052629  <freq:5>5.000 <station_callsign:6>N0CALL <gridsquare:4>QM05 <eor>\n"

/-- A receive line whose payload has nine tokens. -/
def rx9Line : String := "2019-11-22 05:26:29  21.091  0  1  1 Rx:   052615  -8 -0.0  300 ~  XZ2D JM1LSQ R+01 X"

/-- A selection line whose payload has one token instead of three. -/
def selBadLine : String := "2019-11-22 05:25:37  21.091  1  0  0 Sel:  JM1LSQ"

/-- A receive line whose payload has three tokens, fewer than eight. -/
def shortRxLine : String := "2019-11-22 05:26:29  21.091  0  1  1 Rx:   052615  -8 -0.0"

example : pySplit "JM1LSQ      -17 QM05" = ["JM1LSQ", "-17", "QM05"] := by decide
example : pySplit "052615  -8 -0.0  300 ~  XZ2D JM1LSQ R+01" =
    ["052615", "-8", "-0.0", "300", "~", "XZ2D", "JM1LSQ", "R+01"] := by decide
example : pyInt "-17" = some (-17) := by decide
example : adif_db "+01" = some "+01" := by decide
example : adif_db "-17" = some "-17" := by decide
example : pyFloat "21.091" = some ⟨21091, 1000⟩ := by decide
example : fmt3 ⟨21091, 1000⟩ = "21.091" := by decide
example : freq_to_band ⟨21091, 1⟩ = some "15m" := by decide
example : re_loc_match "QM05" = true := by decide
example : strptime2 "2019-11-22" "05:26:29" = some ⟨2019, 11, 22, 5, 26, 29⟩ := by decide

theorem strData_append (a b : String) : (a ++ b).data = a.data ++ b.data := by
  cases a; cases b; rfl

/-- No diagnostic line equals the header (they differ at their first character). -/
theorem diag_ne_header (l : String) : "rx: Not enough arguments: " ++ l ++ "\n" ≠ headerStr := by
  intro h
  have hd := congrArg String.data h
  rw [strData_append, strData_append] at hd
  have e1 : ("rx: Not enough arguments: ").data = 'r' :: ("x: Not enough arguments: ").data := rfl
  have e2 : headerStr.data = 'w' :: ("sjtx fox ADIF Export<eoh>\n").data := rfl
  rw [e1, e2] at hd
  simp at hd

/-- No string ending in the end-of-record marker equals the header (they differ
near their ends). -/
theorem eor_suffix_ne_header (x : String) : x ++ " <eor>\n" ≠ headerStr := by
  intro h
  have hd := congrArg String.data h
  rw [strData_append] at hd
  have h2 := congrArg List.reverse hd
  rw [List.reverse_append] at h2
  have e1 : (" <eor>\n").data.reverse = ['\n', '>', 'r', 'o', 'e', '<', ' '] := rfl
  have e2 : headerStr.data.reverse =
      ['\n', '>', 'h', 'o', 'e', '<', 't', 'r', 'o', 'p', 'x', 'E', ' ', 'F', 'I',
       'D', 'A', ' ', 'x', 'o', 'f', ' ', 'x', 't', 'j', 's', 'w'] := rfl
  rw [e1, e2] at h2
  simp at h2

/-- No ADIF row equals the header. -/
theorem adif_row_ne_header (o : List (String × Option String)) : adif_row o ≠ headerStr :=
  eor_suffix_ne_header _

/-- A successful three-token split makes the `Sel:` branch (re)set the entry. -/
theorem handleSel_eq (st : PTable) (f p c r lo : String) (h : pySplit p = [c, r, lo]) :
    handleSel st f p = ([], dictSet st c ⟨f, lo, r⟩, none) := by
  simp [handleSel, h]

/-- The `Sel:` branch never writes. -/
theorem handleSel_writes_nil (st : PTable) (f p : String) : (handleSel st f p).1 = [] := by
  unfold handleSel
  split <;> rfl

/-- Assignment stores the value under the key. -/
theorem dictGet_set_self (st : PTable) (k : String) (v : PendingQSO) :
    dictGet (dictSet st k v) k = some v := by
  induction st with
  | nil => simp [dictSet, dictGet]
  | cons e rest ih =>
    obtain ⟨a, b⟩ := e
    by_cases h : a = k
    · simp [dictSet, h, dictGet]
    · simp [dictSet, h, dictGet, ih]

/-- Deletion removes the key. -/
theorem dictGet_del_self (st : PTable) (k : String) : dictGet (dictDel st k) k = none := by
  induction st with
  | nil => rfl
  | cons e rest ih =>
    obtain ⟨a, b⟩ := e
    by_cases h : a = k
    · have hb : (!(a == k)) = false := by simp [h]
      simpa [dictDel, List.filter_cons, hb] using ih
    · have hb : (!(a == k)) = true := by simp [h]
      simpa [dictDel, List.filter_cons, hb, dictGet, h] using ih

/-- The per-key entry count of a cons. -/
theorem keyCount_cons (a : String) (b : PendingQSO) (rest : PTable) (k : String) :
    keyCount ((a, b) :: rest) k = (if a = k then 1 else 0) + keyCount rest k := by
  by_cases h : a = k
  · have hb : (a == k) = true := by simp [h]
    simp [keyCount, List.filter_cons, hb, h]
    omega
  · have hb : (a == k) = false := by simp [h]
    simp [keyCount, List.filter_cons, hb, h]

/-- Assignment leaves exactly one entry under the key when the table held at
most one (the invariant of every reachable table). -/
theorem keyCount_set (st : PTable) (k : String) (v : PendingQSO) (h : keyCount st k ≤ 1) :
    keyCount (dictSet st k v) k = 1 := by
  induction st with
  | nil => simp [dictSet, keyCount, List.filter]
  | cons e rest ih =>
    obtain ⟨a, b⟩ := e
    by_cases ha : a = k
    · rw [keyCount_cons, if_pos ha] at h
      have h0 : keyCount rest k = 0 := by omega
      simp [dictSet, ha, keyCount_cons, h0]
    · rw [keyCount_cons, if_neg ha] at h
      have h2 : keyCount rest k ≤ 1 := by omega
      rw [dictSet, if_neg ha, keyCount_cons, if_neg ha, ih h2]

/-- The emitting branch of the `Rx:` handler: a well-shaped payload for a
pending callsign with an `R`-led report and successful numeric conversions
writes exactly one row and deletes the entry. -/
theorem handleRx_emit (args : Args) (cfg : Bool) (st : PTable) (dt : DT) (p l : String)
    (t0 d0 a1 a2 a3 my0 c0 rpt : String) (q : PendingQSO) (rs rr : String) (fq : PyFloat)
    (hsplit : pySplit p = [t0, d0, a1, a2, a3, my0, c0, rpt])
    (hq : dictGet st (stripAngle c0) = some q)
    (hR : strStarts rpt "R" = true)
    (hrs : adif_db q.s_db_sent = some rs)
    (hrr : adif_db (rpt.drop 1) = some rr)
    (hfq : pyFloat q.freq = some fq) :
    handleRx args cfg st dt p l =
      ([(outChanC cfg, adif_row (mkRecord args (stripAngle c0) q (args.tzConv dt) rs rr fq))],
        dictDel st (stripAngle c0), none) := by
  simp [handleRx, hsplit, hq, hR, hrs, hrr, hfq]

/-- The silent branch of the `Rx:` handler: a well-shaped payload whose
callsign is not pending, or whose report is not `R`-led, does nothing. -/
theorem handleRx_skip (args : Args) (cfg : Bool) (st : PTable) (dt : DT) (p l : String)
    (t0 d0 a1 a2 a3 my0 c0 rpt : String)
    (hsplit : pySplit p = [t0, d0, a1, a2, a3, my0, c0, rpt])
    (hnp : dictGet st (stripAngle c0) = none ∨ strStarts rpt "R" = false) :
    handleRx args cfg st dt p l = ([], st, none) := by
  rcases hnp with h | h
  · cases hb : strStarts rpt "R" <;> simp [handleRx, hsplit, h, hb]
  · cases hg : dictGet st (stripAngle c0) <;> simp [handleRx, hsplit, h, hg]

/-- The diagnostic branch of the `Rx:` handler: an under-length payload is
reported on standard output and skipped. -/
theorem handleRx_diag (args : Args) (cfg : Bool) (st : PTable) (dt : DT) (p l : String)
    (h8 : (pySplit p).length < 8) :
    handleRx args cfg st dt p l =
      ([(Chan.stdout, "rx: Not enough arguments: " ++ l ++ "\n")], st, none) := by
  simp only [handleRx]
  rw [if_pos h8]

/-- The iteration of `freq_to_band` returns the first containing entry. -/
theorem freq_to_band_aux_eq_find (f : PyFloat) (l : List (String × Int × Int)) :
    freq_to_band_aux f l =
      (l.find? (fun e => decide (f.geInt e.2.1 ∧ f.leInt e.2.2))).map (fun e => e.1) := by
  induction l with
  | nil => rfl
  | cons e rest ih =>
    by_cases h : f.geInt e.2.1 ∧ f.leInt e.2.2
    · simp [freq_to_band_aux, List.find?, h]
    · simp [freq_to_band_aux, List.find?, h, ih]

/-- If some entry of the list contains the frequency and every containing
entry carries the same name, the iteration returns that name. -/
theorem freq_to_band_aux_unique (f : PyFloat) :
    ∀ (l : List (String × Int × Int)) (b : String) (lo hi : Int), (b, lo, hi) ∈ l →
      f.geInt lo → f.leInt hi →
      (∀ e ∈ l, f.geInt e.2.1 → f.leInt e.2.2 → e.1 = b) →
      freq_to_band_aux f l = some b := by
  intro l
  induction l with
  | nil => intro b lo hi hm; exact absurd hm (List.not_mem_nil _)
  | cons e rest ih =>
    intro b lo hi hm hge hle huniq
    by_cases h : f.geInt e.2.1 ∧ f.leInt e.2.2
    · simp only [freq_to_band_aux, if_pos h]
      exact congrArg some (huniq e (List.mem_cons_self _ _) h.1 h.2)
    · have hrest : (b, lo, hi) ∈ rest := by
        rcases List.mem_cons.mp hm with he | hr
        · exact absurd ⟨by rw [← he]; exact hge, by rw [← he]; exact hle⟩ h
        · exact hr
      simp only [freq_to_band_aux, if_neg h]
      exact ih b lo hi hrest hge hle (fun x hx => huniq x (List.mem_cons_of_mem _ hx))

/-- The iteration returns nothing when no entry contains the frequency. -/
theorem freq_to_band_aux_none (f : PyFloat) :
    ∀ (l : List (String × Int × Int)),
      (∀ e ∈ l, ¬(f.geInt e.2.1 ∧ f.leInt e.2.2)) → freq_to_band_aux f l = none := by
  intro l
  induction l with
  | nil => intro h; rfl
  | cons e rest ih =>
    intro h
    simp only [freq_to_band_aux, if_neg (h e (List.mem_cons_self _ _))]
    exact ih (fun x hx => h x (List.mem_cons_of_mem _ hx))

/-- The declared band ranges are pairwise disjoint. -/
theorem bands_disjoint :
    ∀ e1 ∈ BAND_FREQ, ∀ e2 ∈ BAND_FREQ, e1.2.2 < e2.2.1 ∨ e2.2.2 < e1.2.1 ∨ e1 = e2 := by
  decide

/-- C4.  For every frequency (an exact rational `num / den` in kHz),
`freq_to_band` returns the first band of the table, in declaration order,
whose inclusive range contains it; in particular it returns the band of any
frequency strictly inside a declared range, and `None` for a frequency
outside every declared range. -/
theorem freq_to_band_first_match (f : PyFloat) (hden : 0 < f.den) :
    freq_to_band f = bandOfSpec f
    ∧ (∀ b lo hi, (b, lo, hi) ∈ BAND_FREQ → lo * (f.den : Int) < f.num →
        f.num < hi * (f.den : Int) → freq_to_band f = some b)
    ∧ ((∀ e ∈ BAND_FREQ, f.num < e.2.1 * (f.den : Int) ∨ e.2.2 * (f.den : Int) < f.num) →
        freq_to_band f = none) := by
  have hdz : (0 : Int) < (f.den : Int) := by exact_mod_cast hden
  refine ⟨freq_to_band_aux_eq_find f BAND_FREQ, ?_, ?_⟩
  · intro b lo hi hm h1 h2
    refine freq_to_band_aux_unique f BAND_FREQ b lo hi hm (le_of_lt h1) (le_of_lt h2) ?_
    intro e he hge hle
    rcases bands_disjoint e he (b, lo, hi) hm with hd | hd | hd
    · exfalso
      have : e.2.2 * (f.den : Int) < lo * (f.den : Int) := by
        exact mul_lt_mul_of_pos_right hd hdz
      have hle2 : f.num ≤ e.2.2 * (f.den : Int) := hle
      omega
    · exfalso
      have : hi * (f.den : Int) < e.2.1 * (f.den : Int) := by
        exact mul_lt_mul_of_pos_right hd hdz
      have hge2 : e.2.1 * (f.den : Int) ≤ f.num := hge
      omega
    · rw [hd]
  · intro h
    refine freq_to_band_aux_none f BAND_FREQ ?_
    intro e he hc
    have hge : e.2.1 * (f.den : Int) ≤ f.num := hc.1
    have hle : f.num ≤ e.2.2 * (f.den : Int) := hc.2
    rcases h e he with hd | hd <;> omega

/-- Witness for C4 at concrete inputs: 21091 kHz lies strictly inside the 15m
range, and 2500 kHz lies outside every range. -/
theorem freq_to_band_first_match_instance :
    freq_to_band ⟨21091, 1⟩ = some "15m" ∧ freq_to_band ⟨2500, 1⟩ = none :=
  ⟨(freq_to_band_first_match ⟨21091, 1⟩ (by decide)).2.1 "15m" 21000 21450
      (by decide) (by decide) (by decide),
    (freq_to_band_first_match ⟨2500, 1⟩ (by decide)).2.2 (by decide)⟩

/-- The `Rx:` handler writes nothing, one diagnostic, or one ADIF row. -/
theorem handleRx_writes_cases (args : Args) (cfg : Bool) (st : PTable) (dt : DT) (p l : String) :
    (handleRx args cfg st dt p l).1 = []
    ∨ (handleRx args cfg st dt p l).1 =
        [(Chan.stdout, "rx: Not enough arguments: " ++ l ++ "\n")]
    ∨ ∃ o, (handleRx args cfg st dt p l).1 = [(outChanC cfg, adif_row o)] := by
  simp only [handleRx]
  split
  · right; left; rfl
  · split
    · try dsimp only
      split
      · try dsimp only
        split
        · right; right; exact ⟨_, rfl⟩
        all_goals left; rfl
      all_goals left; rfl
    all_goals left; rfl

/-- No write produced while processing one line equals the header. -/
theorem lineOut_writes_ne_header (args : Args) (cfg : Bool) (st : PTable) (l : String) :
    ∀ w ∈ (lineOut args cfg st l).1, w.2 ≠ headerStr := by
  intro w hw
  unfold lineOut at hw
  split at hw
  · simp at hw
  · split at hw
    · simp at hw
    · rename_i x1 g hg x2 d_dt hdt
      by_cases hs : g.s_linetype = "Sel:"
      · rw [if_pos hs, handleSel_writes_nil] at hw
        simp at hw
      · rw [if_neg hs] at hw
        by_cases hr : g.s_linetype = "Rx:"
        · rw [if_pos hr] at hw
          rcases handleRx_writes_cases args cfg st d_dt g.s_string l with h | h | ⟨o, h⟩ <;>
            rw [h] at hw
          · simp at hw
          · rw [List.mem_singleton] at hw
            rw [hw]
            exact diag_ne_header l
          · rw [List.mem_singleton] at hw
            rw [hw]
            exact adif_row_ne_header o
        · rw [if_neg hr] at hw
          simp at hw

/-- The header written at start stays first, and line processing never writes
it again, whatever the fold state. -/
theorem foldl_writes_inv (args : Args) (cfg : Bool) (lines : List String) :
    ∀ (rs : RunState) (rest : List (Chan × String)),
      rs.writes = (outChanC cfg, headerStr) :: rest →
      (∀ w ∈ rest, w.2 ≠ headerStr) →
      ∃ r2, (lines.foldl (stepRun args cfg) rs).writes = (outChanC cfg, headerStr) :: r2
        ∧ ∀ w ∈ r2, w.2 ≠ headerStr := by
  induction lines with
  | nil => intro rs rest h1 h2; exact ⟨rest, h1, h2⟩
  | cons l ls ih =>
    intro rs rest h1 h2
    rw [List.foldl_cons]
    by_cases hab : rs.aborted.isSome
    · have hstep : stepRun args cfg rs l = rs := by simp [stepRun, hab]
      rw [hstep]
      exact ih rs rest h1 h2
    · have hstep : (stepRun args cfg rs l).writes =
          rs.writes ++ (lineOut args cfg rs.ongoing l).1 := by
        simp [stepRun, hab]
      refine ih _ (rest ++ (lineOut args cfg rs.ongoing l).1) ?_ ?_
      · rw [hstep, h1, List.cons_append]
      · intro w hw
        rcases List.mem_append.mp hw with h | h
        · exact h2 w h
        · exact lineOut_writes_ne_header args cfg rs.ongoing l w h

/-- C9.  For every input, the fixed header line is the very first write, and no
later write (record or diagnostic) ever equals it, so the header is written
exactly once and before any record — including runs that emit zero records. -/
theorem header_first_and_once (args : Args) (cfg : Bool) (lines : List String) :
    ∃ rest, (convert args cfg lines).writes = (outChanC cfg, headerStr) :: rest
      ∧ ∀ w ∈ rest, w.2 ≠ headerStr :=
  foldl_writes_inv args cfg lines ⟨[], [(outChanC cfg, headerStr)], none⟩ [] rfl
    (by intro w hw; simp at hw)

/-- C1 counterexample.  The receive payload token `R` satisfies the claim's
hypotheses (its callsign is pending and its report token starts with `R`), yet
the handler emits no record and removes nothing: `int('')` on the empty report
remainder raises, aborting the run. -/
theorem rx_bare_R_report_aborts_without_record :
    (dictGet [("JM1LSQ", ⟨"21.091", "QM05", "-17"⟩)] "JM1LSQ").isSome = true
    ∧ strStarts "R" "R" = true
    ∧ (handleRx argsD false [("JM1LSQ", ⟨"21.091", "QM05", "-17"⟩)] dt0
        "052615 -8 -0.0 300 ~ XZ2D JM1LSQ R" rxLine20).1 = []
    ∧ (handleRx argsD false [("JM1LSQ", ⟨"21.091", "QM05", "-17"⟩)] dt0
        "052615 -8 -0.0 300 ~ XZ2D JM1LSQ R" rxLine20).2.1 =
        [("JM1LSQ", ⟨"21.091", "QM05", "-17"⟩)]
    ∧ (handleRx argsD false [("JM1LSQ", ⟨"21.091", "QM05", "-17"⟩)] dt0
        "052615 -8 -0.0 300 ~ XZ2D JM1LSQ R" rxLine20).2.2.isSome = true := by
  refine ⟨?_, ?_, ?_, ?_, ?_⟩ <;> decide

/-- C1 (amended).  For a receive payload of exactly eight tokens: if the
bracket-stripped remote callsign is pending, the report token starts with `R`,
and the numeric conversions succeed (the stored sent-report and the report
remainder parse as integers, the stored frequency parses as a float), the
handler emits exactly one ADIF row and deletes the pending entry, and
reprocessing the identical line afterwards emits nothing and changes nothing;
if the callsign is not pending or the report is not `R`-led, the handler emits
nothing and leaves the table unchanged. -/
theorem rx_event_correlation (args : Args) (cfg : Bool) (st : PTable) (dt : DT)
    (p l t0 d0 a1 a2 a3 my0 c0 rpt : String)
    (hsplit : pySplit p = [t0, d0, a1, a2, a3, my0, c0, rpt]) :
    (∀ q rs rr fq, dictGet st (stripAngle c0) = some q → strStarts rpt "R" = true →
      adif_db q.s_db_sent = some rs → adif_db (rpt.drop 1) = some rr →
      pyFloat q.freq = some fq →
      handleRx args cfg st dt p l =
        ([(outChanC cfg, adif_row (mkRecord args (stripAngle c0) q (args.tzConv dt) rs rr fq))],
          dictDel st (stripAngle c0), none)
      ∧ handleRx args cfg (dictDel st (stripAngle c0)) dt p l =
          ([], dictDel st (stripAngle c0), none))
    ∧ ((dictGet st (stripAngle c0) = none ∨ strStarts rpt "R" = false) →
      handleRx args cfg st dt p l = ([], st, none)) := by
  constructor
  · intro q rs rr fq hq hR hrs hrr hfq
    refine ⟨handleRx_emit args cfg st dt p l t0 d0 a1 a2 a3 my0 c0 rpt q rs rr fq
      hsplit hq hR hrs hrr hfq, ?_⟩
    exact handleRx_skip args cfg _ dt p l t0 d0 a1 a2 a3 my0 c0 rpt hsplit
      (Or.inl (dictGet_del_self st (stripAngle c0)))
  · intro h
    exact handleRx_skip args cfg st dt p l t0 d0 a1 a2 a3 my0 c0 rpt hsplit h

/-- Witness for C1 at the spec's example receive event. -/
theorem rx_event_correlation_instance :
    (handleRx argsD false [("JM1LSQ", ⟨"21.091", "QM05", "-17"⟩)] dt0
        "052615  -8 -0.0  300 ~  XZ2D JM1LSQ R+01" rxLine20 =
      ([(outChanC false, adif_row (mkRecord argsD (stripAngle "JM1LSQ")
            ⟨"21.091", "QM05", "-17"⟩ (argsD.tzConv dt0) "-17" "+01" ⟨21091, 1000⟩))],
        dictDel [("JM1LSQ", ⟨"21.091", "QM05", "-17"⟩)] (stripAngle "JM1LSQ"), none))
    ∧ handleRx argsD false (dictDel [("JM1LSQ", ⟨"21.091", "QM05", "-17"⟩)] (stripAngle "JM1LSQ"))
        dt0 "052615  -8 -0.0  300 ~  XZ2D JM1LSQ R+01" rxLine20 =
        ([], dictDel [("JM1LSQ", ⟨"21.091", "QM05", "-17"⟩)] (stripAngle "JM1LSQ"), none) :=
  (rx_event_correlation argsD false [("JM1LSQ", ⟨"21.091", "QM05", "-17"⟩)] dt0
      "052615  -8 -0.0  300 ~  XZ2D JM1LSQ R+01" rxLine20
      "052615" "-8" "-0.0" "300" "~" "XZ2D" "JM1LSQ" "R+01" (by decide)).1
    ⟨"21.091", "QM05", "-17"⟩ "-17" "+01" ⟨21091, 1000⟩
    (by decide) (by decide) (by decide) (by decide) (by decide)

/-- C5.  Selecting callsign `X` and selecting `X` again before any reply
leaves exactly one pending entry for `X`, holding the second selection's
frequency, locator and sent-report; any record later emitted for `X` is built
from exactly those second-selection values. -/
theorem reselect_overwrites_pending (st st1 st2 : PTable)
    (f1 f2 p1 p2 X r1 l1 r2 l2 : String)
    (h1 : pySplit p1 = [X, r1, l1]) (h2 : pySplit p2 = [X, r2, l2])
    (hc : keyCount st X ≤ 1)
    (e1 : st1 = (handleSel st f1 p1).2.1) (e2 : st2 = (handleSel st1 f2 p2).2.1) :
    dictGet st2 X = some ⟨f2, l2, r2⟩ ∧ keyCount st2 X = 1
    ∧ ∀ (args : Args) (cfg : Bool) (dt : DT) (p l t0 d0 a1 a2 a3 my0 c0 rpt rs rr : String)
        (fq : PyFloat),
        pySplit p = [t0, d0, a1, a2, a3, my0, c0, rpt] → stripAngle c0 = X →
        strStarts rpt "R" = true → adif_db r2 = some rs → adif_db (rpt.drop 1) = some rr →
        pyFloat f2 = some fq →
        handleRx args cfg st2 dt p l =
          ([(outChanC cfg, adif_row (mkRecord args X ⟨f2, l2, r2⟩ (args.tzConv dt) rs rr fq))],
            dictDel st2 X, none) := by
  have hs1 : st1 = dictSet st X ⟨f1, l1, r1⟩ := by rw [e1, handleSel_eq st f1 p1 X r1 l1 h1]
  have hs2 : st2 = dictSet st1 X ⟨f2, l2, r2⟩ := by rw [e2, handleSel_eq st1 f2 p2 X r2 l2 h2]
  have hget : dictGet st2 X = some ⟨f2, l2, r2⟩ := by
    rw [hs2]; exact dictGet_set_self st1 X _
  have hc1 : keyCount st1 X ≤ 1 := by
    rw [hs1, keyCount_set st X _ hc]
  have hcount : keyCount st2 X = 1 := by
    rw [hs2]; exact keyCount_set st1 X _ hc1
  refine ⟨hget, hcount, ?_⟩
  intro args cfg dt p l t0 d0 a1 a2 a3 my0 c0 rpt rs rr fq hsp hstrip hR hrs hrr hfq
  have h3 := handleRx_emit args cfg st2 dt p l t0 d0 a1 a2 a3 my0 c0 rpt
    ⟨f2, l2, r2⟩ rs rr fq hsp (by rw [hstrip]; exact hget) hR hrs hrr hfq
  rw [hstrip] at h3
  exact h3

/-- Witness for C5: select `JM1LSQ` on 40m with locator `FN42` and report
`-10`, reselect on 15m with `QM05` and `-17`; the reply is logged with only
the second selection's values. -/
theorem reselect_overwrites_pending_instance :
    dictGet ((handleSel ((handleSel [] "7.074" "JM1LSQ -10 FN42").2.1) "21.091"
        "JM1LSQ      -17 QM05").2.1) "JM1LSQ" = some ⟨"21.091", "QM05", "-17"⟩
    ∧ keyCount ((handleSel ((handleSel [] "7.074" "JM1LSQ -10 FN42").2.1) "21.091"
        "JM1LSQ      -17 QM05").2.1) "JM1LSQ" = 1
    ∧ handleRx argsD false ((handleSel ((handleSel [] "7.074" "JM1LSQ -10 FN42").2.1) "21.091"
        "JM1LSQ      -17 QM05").2.1) dt0 "052615  -8 -0.0  300 ~  XZ2D JM1LSQ R+01" rxLine20 =
      ([(outChanC false, adif_row (mkRecord argsD "JM1LSQ" ⟨"21.091", "QM05", "-17"⟩
            (argsD.tzConv dt0) "-17" "+01" ⟨21091, 1000⟩))],
        dictDel ((handleSel ((handleSel [] "7.074" "JM1LSQ -10 FN42").2.1) "21.091"
          "JM1LSQ      -17 QM05").2.1) "JM1LSQ", none) := by
  have h := reselect_overwrites_pending [] _ _ "7.074" "21.091" "JM1LSQ -10 FN42"
    "JM1LSQ      -17 QM05" "JM1LSQ" "-10" "FN42" "-17" "QM05"
    (by decide) (by decide) (by decide) rfl rfl
  exact ⟨h.1, h.2.1, h.2.2 argsD false dt0 "052615  -8 -0.0  300 ~  XZ2D JM1LSQ R+01" rxLine20
    "052615" "-8" "-0.0" "300" "~" "XZ2D" "JM1LSQ" "R+01" "-17" "+01" ⟨21091, 1000⟩
    (by decide) (by decide) (by decide) (by decide) (by decide) (by decide)⟩

/-- C6.  In a built record, the `gridsquare` field is present exactly when the
stored locator token matches two uppercase letters followed by two digits
(length four), and when present it holds the stored locator itself, never a
default.  (The hypothesis that the locator does not end in a newline is
guaranteed for whitespace-split tokens; Python's `$` would also accept one
trailing newline.) -/
theorem gridsquare_iff_loc_pattern (args : Args) (call : String) (q : PendingQSO) (utc : DT)
    (rs rr : String) (fq : PyFloat)
    (hnl : (q.loc.data.getLast? == some '\n') = false) :
    ((mkRecord args call q utc rs rr fq).lookup "gridsquare" ≠ none ↔ locCore q.loc.data = true)
    ∧ ∀ v, (mkRecord args call q utc rs rr fq).lookup "gridsquare" = some v → v = some q.loc := by
  have hre : re_loc_match q.loc = locCore q.loc.data := by
    simp [re_loc_match, hnl]
  have hlk : (mkRecord args call q utc rs rr fq).lookup "gridsquare" =
      (if re_loc_match q.loc then some (some q.loc) else none) := by
    rcases hp : args.power with _ | pw
    · by_cases hl : re_loc_match q.loc <;> simp [mkRecord, hp, hl, List.lookup]
    · by_cases hl : re_loc_match q.loc <;> by_cases hz : pw = 0 <;>
        simp [mkRecord, hp, hl, hz, List.lookup]
  rw [hre] at hlk
  by_cases hc : locCore q.loc.data = true
  · rw [hlk, if_pos hc]
    exact ⟨by simp [hc], fun v hv => by injection hv with hv2; exact hv2.symm⟩
  · rw [hlk, if_neg hc]
    refine ⟨by simpa using hc, ?_⟩
    intro v hv
    cases hv

/-- Witness for C6: locator `QM05` matches the grid pattern, so the field is
present. -/
theorem gridsquare_iff_loc_pattern_instance :
    (mkRecord argsD "JM1LSQ" ⟨"21.091", "QM05", "-17"⟩ dt0 "-17" "+01"
      ⟨21091, 1000⟩).lookup "gridsquare" ≠ none :=
  (gridsquare_iff_loc_pattern argsD "JM1LSQ" ⟨"21.091", "QM05", "-17"⟩ dt0 "-17" "+01"
    ⟨21091, 1000⟩ (by decide)).1.mpr (by decide)

/-- C7.  Field encoding renders key, value length, then the literal value:
encoding `-07` under `rst_rcvd` yields `<rst_rcvd:3>-07` exactly; and every
row is the space-separated join of its encoded fields followed by the literal
seven characters ` <eor>` and a newline. -/
theorem adif_field_row_format :
    adif_field "rst_rcvd" (some "-07") = "<rst_rcvd:3>-07"
    ∧ ∀ h : List (String × Option String),
        (adif_row h).data =
          (String.intercalate " " (h.map fun kv => adif_field kv.1 kv.2)).data ++
            [' ', '<', 'e', 'o', 'r', '>', '\n'] := by
  refine ⟨rfl, ?_⟩
  intro h
  rw [adif_row, strData_append]

/-- C8 counterexample.  In the default configuration (no output file), the
under-length diagnostic and the ADIF output share standard output: the claim
that they are distinct channels for every configuration fails. -/
theorem diag_shares_stdout_by_default :
    (convert argsD false [shortRxLine]).writes =
      [(Chan.stdout, headerStr),
       (Chan.stdout, "rx: Not enough arguments: " ++ shortRxLine ++ "\n")]
    ∧ outChanC false = Chan.stdout := by
  refine ⟨?_, ?_⟩ <;> decide

/-- C8 (amended).  An under-length receive payload is always reported on
standard output and skipped; standard output is distinct from the ADIF output
stream exactly when an output file is configured. -/
theorem diag_channel_vs_output (args : Args) (cfg : Bool) (st : PTable) (dt : DT)
    (p l : String) (h8 : (pySplit p).length < 8) :
    handleRx args cfg st dt p l =
      ([(Chan.stdout, "rx: Not enough arguments: " ++ l ++ "\n")], st, none)
    ∧ (Chan.stdout ≠ outChanC cfg ↔ cfg = true) := by
  refine ⟨handleRx_diag args cfg st dt p l h8, ?_⟩
  cases cfg <;> simp [outChanC]

/-- Witness for C8 with an output file configured. -/
theorem diag_channel_vs_output_instance :
    handleRx argsD true [] dt0 "052615  -8 -0.0" shortRxLine =
      ([(Chan.stdout, "rx: Not enough arguments: " ++ shortRxLine ++ "\n")], [], none)
    ∧ (Chan.stdout ≠ outChanC true ↔ true = true) :=
  diag_channel_vs_output argsD true [] dt0 "052615  -8 -0.0" shortRxLine (by decide)

/-- C2 counterexample.  On the spec's exact two input lines with own callsign
`N0CALL` and zone UTC, the one emitted record carries `band` `15m` (the table
band containing 21.091 MHz) and contains `20m` nowhere, refuting the claimed
`band` = 20m. -/
theorem end_to_end_band_is_15m_not_20m :
    (convert argsD false [selLine20, rxLine20]).writes =
      [(Chan.stdout, headerStr), (Chan.stdout, rec20)]
    ∧ strHas rec20 "<band:3>15m" = true
    ∧ strHas rec20 "20m" = false := by
  refine ⟨?_, ?_, ?_⟩ <;> decide

/-- C2 (amended).  On the spec's exact two input lines with own callsign
`N0CALL` and zone UTC, exactly one record is emitted after the header, with
`call` JM1LSQ, `rst_sent` -17, `rst_rcvd` +01, `band` 15m (the band of
21.091 MHz), `gridsquare` QM05 and `station_callsign` N0CALL. -/
theorem end_to_end_sample_record :
    (convert argsD false [selLine20, rxLine20]).writes =
      [(Chan.stdout, headerStr), (Chan.stdout, rec20)]
    ∧ (convert argsD false [selLine20, rxLine20]).aborted = none
    ∧ strHas rec20 "<call:6>JM1LSQ" = true
    ∧ strHas rec20 "<rst_sent:3>-17" = true
    ∧ strHas rec20 "<rst_rcvd:3>+01" = true
    ∧ strHas rec20 "<band:3>15m" = true
    ∧ strHas rec20 "<gridsquare:4>QM05" = true
    ∧ strHas rec20 "<station_callsign:6>N0CALL" = true := by
  refine ⟨?_, ?_, ?_, ?_, ?_, ?_, ?_, ?_⟩ <;> decide

/-- C3.  A receive payload of nine tokens matches the outer grammar and the
`at least eight tokens` shape, yet the eight-name unpacking raises an uncaught
`ValueError` and aborts the conversion (emitting nothing after the header); a
selection payload that does not split into exactly three tokens aborts the
same way.  Only the under-length receive payload is reported and skipped, with
processing continuing to later lines. -/
theorem payload_shape_failures_abort_or_skip :
    (pySplit "052615  -8 -0.0  300 ~  XZ2D JM1LSQ R+01 X").length = 9
    ∧ (convert argsD false [rx9Line]).aborted.isSome = true
    ∧ (convert argsD false [rx9Line]).writes = [(Chan.stdout, headerStr)]
    ∧ (convert argsD false [selBadLine]).aborted.isSome = true
    ∧ (convert argsD false [selBadLine]).writes = [(Chan.stdout, headerStr)]
    ∧ (convert argsD false [shortRxLine, selLine20, rxLine20]).aborted = none
    ∧ (convert argsD false [shortRxLine, selLine20, rxLine20]).writes =
        [(Chan.stdout, headerStr),
         (Chan.stdout, "rx: Not enough arguments: " ++ shortRxLine ++ "\n"),
         (Chan.stdout, rec20)] := by
  refine ⟨?_, ?_, ?_, ?_, ?_, ?_, ?_⟩ <;> decide

/-- C10.  Encoding any field whose value is `None` yields the empty string, so
the field is omitted from the row; in particular a contact at 5.000 MHz,
outside every declared band, is still emitted but its record contains no band
field. -/
theorem none_field_omitted :
    (∀ k, adif_field k none = "")
    ∧ (convert argsD false [selLine5, rxLine5]).writes =
        [(Chan.stdout, headerStr), (Chan.stdout, rec5)]
    ∧ (convert argsD false [selLine5, rxLine5]).aborted = none
    ∧ strHas rec5 "<band" = false := by
  refine ⟨fun k => rfl, ?_, ?_, ?_⟩ <;> decide

/-- Witness for C9 on an empty input: the output is the header line alone. -/
theorem header_first_and_once_instance :
    ∃ rest, (convert argsD false []).writes = (outChanC false, headerStr) :: rest
      ∧ ∀ w ∈ rest, w.2 ≠ headerStr :=
  header_first_and_once argsD false []
